import Mathlib

/-!
Verification development for the FMP MCP server's normalization adapter
(`src/api.py` together with the tool facade in `src/fmp_mcp_server.py`).

The adapter is embedded shallowly:
* Python `datetime.date` values are `Date` triples; `datetime ± timedelta(days=n)`
  is rata-die arithmetic on the proleptic Gregorian calendar (which is exactly
  what CPython's `datetime` implements); `strftime("%Y-%m-%d")` is `formatDate`
  and `strptime(s, "%Y-%m-%d")` is `parseDate` (zero-padded ISO dates;
  `parseDate` also enforces the month/day range validation that `datetime`
  performs).
* Python string comparison (used by the date-range filters) is code-point
  lexicographic comparison, embedded as `strLt` / `strLe`.
* A raw upstream record (`Dict[str, Any]`) is an association list
  `List (String × RawVal)` with first-match lookup (dict keys are unique, so
  first-match lookup models dict lookup faithfully). Scalar upstream values are
  numbers or strings (`RawVal`); `float(v)` is `pyFloat`.
* Each adapter operation takes the raw upstream response as an
  `Except String _` argument: `.error e` is the upstream call raising an
  exception with message `e`.  The `try/except ... raise` blocks in `api.py`
  re-raise, so upstream errors propagate through the adapter unchanged; the
  facade in `fmp_mcp_server.py` converts them to an HTTP 500 error whose
  detail string embeds the original message.
* Pydantic's type validation of model fields is part of the external model
  library, not of the adapter's control flow, and is not modelled: fields whose
  upstream value is passed through `item.get(...)` without an explicit
  conversion in `api.py` are stored as raw values.  The one conversion `api.py`
  performs itself, `float(value)` on an indicator value, is modelled (and can
  fail, failing the whole call).
-/

namespace FMP

/-- A calendar date, as held by Python's `datetime.date`. -/
structure Date where
  year : Nat
  month : Nat
  day : Nat
deriving DecidableEq, Repr

/-- Leap-year test of the proleptic Gregorian calendar. -/
def isLeap (y : Nat) : Bool :=
  y % 4 == 0 && (y % 100 != 0 || y % 400 == 0)

/-- Number of days in a month (proleptic Gregorian). -/
def daysInMonth (y m : Nat) : Nat :=
  if m = 2 then (if isLeap y then 29 else 28)
  else if m = 4 ∨ m = 6 ∨ m = 9 ∨ m = 11 then 30
  else 31

/-- A well-formed date that `strftime("%Y-%m-%d")` renders as ten zero-padded
characters.  (CPython's `datetime.MINYEAR` is 1; we additionally restrict to
four-digit years, which covers every date the adapter can encounter.) -/
def validDate (d : Date) : Prop :=
  1000 ≤ d.year ∧ d.year ≤ 9999 ∧
  1 ≤ d.month ∧ d.month ≤ 12 ∧
  1 ≤ d.day ∧ d.day ≤ daysInMonth d.year d.month

instance (d : Date) : Decidable (validDate d) := by
  unfold validDate; infer_instance

/-- Rata-die day number of a date (days since 0000-03-01 era origin, shifted so
that 1970-01-01 is day 0), following the standard `days_from_civil` algorithm
for the proleptic Gregorian calendar — the same calendar CPython's `datetime`
arithmetic implements. -/
def toRataDie (d : Date) : Int :=
  let y : Int := (d.year : Int) - (if d.month ≤ 2 then 1 else 0)
  let m : Int := (d.month : Int)
  let day : Int := (d.day : Int)
  let era : Int := y.fdiv 400
  let yoe : Int := y - era * 400
  let doy : Int := (153 * (m + (if m > 2 then -3 else 9)) + 2).fdiv 5 + day - 1
  let doe : Int := yoe * 365 + yoe.fdiv 4 - yoe.fdiv 100 + doy
  era * 146097 + doe - 719468

/-- Inverse of `toRataDie` (`civil_from_days`). -/
def fromRataDie (z0 : Int) : Date :=
  let z : Int := z0 + 719468
  let era : Int := z.fdiv 146097
  let doe : Int := z - era * 146097
  let yoe : Int := (doe - doe.fdiv 1460 + doe.fdiv 36524 - doe.fdiv 146096).fdiv 365
  let y : Int := yoe + era * 400
  let doy : Int := doe - (365 * yoe + yoe.fdiv 4 - yoe.fdiv 100)
  let mp : Int := (5 * doy + 2).fdiv 153
  let day : Int := doy - (153 * mp + 2).fdiv 5 + 1
  let m : Int := mp + (if mp < 10 then 3 else -9)
  let y' : Int := y + (if m ≤ 2 then 1 else 0)
  ⟨y'.toNat, m.toNat, day.toNat⟩

/-- Python `d + timedelta(days = n)`. -/
def pyDateAdd (d : Date) (n : Int) : Date :=
  fromRataDie (toRataDie d + n)

/-- Python `d - timedelta(days = n)`. -/
def pyDateSub (d : Date) (n : Int) : Date :=
  fromRataDie (toRataDie d - n)

/-- The decimal digit character for `n % 10`. -/
def digitChar (n : Nat) : Char :=
  match n % 10 with
  | 0 => '0' | 1 => '1' | 2 => '2' | 3 => '3' | 4 => '4'
  | 5 => '5' | 6 => '6' | 7 => '7' | 8 => '8' | _ => '9'

/-- Numeric value of a decimal digit character, `none` on a non-digit. -/
def charDigit (c : Char) : Option Nat :=
  if c = '0' then some 0 else if c = '1' then some 1
  else if c = '2' then some 2 else if c = '3' then some 3
  else if c = '4' then some 4 else if c = '5' then some 5
  else if c = '6' then some 6 else if c = '7' then some 7
  else if c = '8' then some 8 else if c = '9' then some 9
  else none

/-- Zero-padded four-digit rendering of a year. -/
def pad4 (n : Nat) : List Char :=
  [digitChar (n / 1000), digitChar (n / 100), digitChar (n / 10), digitChar n]

/-- Zero-padded two-digit rendering of a month or day. -/
def pad2 (n : Nat) : List Char :=
  [digitChar (n / 10), digitChar n]

/-- Python `d.strftime("%Y-%m-%d")`. -/
def formatDate (d : Date) : String :=
  ⟨pad4 d.year ++ '-' :: pad2 d.month ++ '-' :: pad2 d.day⟩

/-- Python `datetime.strptime(s, "%Y-%m-%d")` (restricted to the zero-padded
ten-character form, which is all the adapter ever produces); includes the
month/day range validation `datetime` performs, returning `none` where Python
raises `ValueError`. -/
def parseDate (s : String) : Option Date :=
  match s.data with
  | [y1, y2, y3, y4, h1, m1, m2, h2, d1, d2] =>
    if h1 = '-' ∧ h2 = '-' then
      match charDigit y1, charDigit y2, charDigit y3, charDigit y4,
            charDigit m1, charDigit m2, charDigit d1, charDigit d2 with
      | some a, some b, some c, some d, some e, some f, some g, some h =>
        let y := a * 1000 + b * 100 + c * 10 + d
        let mo := e * 10 + f
        let dy := g * 10 + h
        if 1 ≤ y ∧ 1 ≤ mo ∧ mo ≤ 12 ∧ 1 ≤ dy ∧ dy ≤ daysInMonth y mo then
          some ⟨y, mo, dy⟩
        else none
      | _, _, _, _, _, _, _, _ => none
    else none
  | _ => none

/-- Python `a < b` on strings: code-point lexicographic order (list form). -/
def strLtL : List Char → List Char → Bool
  | [], [] => false
  | [], _ :: _ => true
  | _ :: _, [] => false
  | a :: as, b :: bs =>
    if a.toNat < b.toNat then true
    else if b.toNat < a.toNat then false
    else strLtL as bs

/-- Python `a < b` on strings. -/
def strLt (a b : String) : Bool := strLtL a.data b.data

/-- Python `a <= b` on strings (total order, so `a <= b ↔ ¬ b < a`). -/
def strLe (a b : String) : Bool := !(strLt b a)

/-- ASCII lowercasing of one character (`str.lower()` restricted to ASCII,
which covers every indicator name the server passes). -/
def charLower (c : Char) : Char :=
  if 'A' ≤ c ∧ c ≤ 'Z' then Char.ofNat (c.toNat + 32) else c

/-- Python `s.lower()` (ASCII). -/
def strToLower (s : String) : String := ⟨s.data.map charLower⟩

/-- A scalar value inside a raw upstream record: a JSON number or string. -/
inductive RawVal where
  | num (q : ℚ)
  | str (s : String)
deriving DecidableEq, Repr

/-- A raw upstream record (`Dict[str, Any]`): an association list with unique
keys, looked up first-match. -/
def RawItem : Type := List (String × RawVal)

instance : DecidableEq RawItem := by unfold RawItem; infer_instance

instance : Repr RawItem := inferInstanceAs (Repr (List (String × RawVal)))

/-- Dict lookup: `item[k]` / `item.get(k)`. -/
def lookup? (item : RawItem) (k : String) : Option RawVal :=
  (item.find? (fun p => p.1 = k)).map (·.2)

/-- Python `k in item`. -/
def hasKey (item : RawItem) (k : String) : Bool :=
  (lookup? item k).isSome

/-- Digit-string value, `none` if empty or containing a non-digit. -/
def digitsVal : List Char → Option Nat
  | [] => none
  | [c] => charDigit c
  | c :: rest => do
    let d ← charDigit c
    let r ← digitsVal rest
    pure (d * 10 ^ rest.length + r)

/-- Python `float(s)` on a plain decimal string (optional sign, integer part,
optional fractional part); `none` where Python raises `ValueError`. -/
def parseDecimal (s : String) : Option ℚ :=
  let (neg, l) :=
    match s.data with
    | '-' :: rest => (true, rest)
    | l => (false, l)
  let intPart := l.takeWhile (fun c => c ≠ '.')
  let sign : ℚ := if neg then -1 else 1
  match l.dropWhile (fun c => c ≠ '.') with
  | [] => (digitsVal intPart).map (fun n => sign * (n : ℚ))
  | _ :: frac =>
    match intPart, frac with
    | [], [] => none
    | [], _ => (digitsVal frac).map (fun f => sign * (f : ℚ) / 10 ^ frac.length)
    | _, [] => (digitsVal intPart).map (fun n => sign * (n : ℚ))
    | _, _ => do
      let n ← digitsVal intPart
      let f ← digitsVal frac
      pure (sign * ((n : ℚ) + (f : ℚ) / 10 ^ frac.length))

/-- Python `float(v)` on a raw scalar; `none` where Python raises. -/
def pyFloat : RawVal → Option ℚ
  | .num q => some q
  | .str s => parseDecimal s

/-- Embeds `item.get('date', '')`, as consumed as a string by the date filters.
(A non-string value under the `'date'` key is not modelled; upstream dates are
strings.) -/
def getDate (item : RawItem) : String :=
  match lookup? item "date" with
  | some (.str s) => s
  | _ => ""

/-- Embeds `models.IndicatorValue`. -/
structure IndicatorValue where
  date : String
  value : ℚ
deriving DecidableEq, Repr

/-- Embeds `models.IndicatorOutput`. -/
structure IndicatorOutput where
  symbol : String
  indicator : String
  time_period : Int
  values : List IndicatorValue
deriving DecidableEq, Repr

/-- Value resolution of `get_technical_indicator` (api.py lines 65–78): the
lower-cased indicator name first, then the fallback keys `'value'`, the
indicator name as given, `'indicator_value'`, first match wins; `none` means
the record is skipped. -/
def resolveIndicatorValue (indicator : String) (item : RawItem) : Option RawVal :=
  if hasKey item (strToLower indicator) then
    lookup? item (strToLower indicator)
  else
    ["value", indicator, "indicator_value"].findSome? (lookup? item)

/-- One loop iteration of `get_technical_indicator`'s conversion (api.py lines
64–83): `.ok none` = record skipped, `.ok (some p)` = point appended,
`.error` = `float(value)` raised. -/
def mkPoint (indicator : String) (item : RawItem) :
    Except String (Option IndicatorValue) :=
  match resolveIndicatorValue indicator item with
  | none => .ok none
  | some v =>
    match pyFloat v with
    | some q => .ok (some ⟨getDate item, q⟩)
    | none => .error "could not convert string to float"

/-- The `values` list built by `get_technical_indicator`'s loop, before the
date-range filter. -/
def buildValues (indicator : String) : List RawItem → Except String (List IndicatorValue)
  | [] => .ok []
  | item :: rest => do
    match ← mkPoint indicator item with
    | none => buildValues indicator rest
    | some p => return p :: (← buildValues indicator rest)

/-- Total variant of `mkPoint` describing which records contribute a point when
the whole conversion succeeds (used only to state properties). -/
def mkPointTotal (indicator : String) (item : RawItem) : Option IndicatorValue :=
  match mkPoint indicator item with
  | .ok o => o
  | .error _ => none

/-- Default `from_date` of an indicator query (api.py line 53):
`(strptime(to_date) - timedelta(days=100)).strftime("%Y-%m-%d")`; `.error` is
`strptime` raising `ValueError`. -/
def resolveFrom (td : String) : Except String String :=
  match parseDate td with
  | some d => .ok (formatDate (pyDateSub d 100))
  | none => .error ("time data " ++ td ++ " does not match format %Y-%m-%d")

/-- Date-window resolution of `get_technical_indicator` (api.py lines 47–53),
with `today` standing for `datetime.now()`.  Python's `if not x:` treats both
`None` and `''` as absent. -/
def indicatorWindow (today : Date) (from_date to_date : Option String) :
    Except String (String × String) :=
  let td :=
    match to_date with
    | none => formatDate today
    | some s => if s = "" then formatDate today else s
  match from_date with
  | none => (resolveFrom td).map (fun f => (f, td))
  | some s =>
    if s = "" then (resolveFrom td).map (fun f => (f, td))
    else .ok (s, td)

/-- Embeds `api.get_technical_indicator` (api.py lines 43–96).  `raw_data` is the
upstream response or the exception it raised; the `except ... raise` at the
bottom re-raises, so errors pass through unchanged. -/
def get_technical_indicator (today : Date) (symbol indicator : String)
    (time_period : Int) (from_date to_date : Option String)
    (raw_data : Except String (List RawItem)) :
    Except String IndicatorOutput := do
  let (fd, td) ← indicatorWindow today from_date to_date
  let raw ← raw_data
  let values ← buildValues indicator raw
  let filtered_values := values.filter (fun v => strLe fd v.date && strLe v.date td)
  return ⟨symbol, indicator, time_period, filtered_values⟩

/-- Embeds `models.EarningsCalendarEvent`; fields that `api.py` passes through from
`item.get(...)` without converting are kept as raw values. -/
structure EarningsCalendarEvent where
  symbol : RawVal
  date : String
  eps : Option RawVal
  eps_estimated : Option RawVal
  time : Option RawVal
  revenue : Option RawVal
  revenue_estimated : Option RawVal
  quarter : Option RawVal
  year : Option RawVal
deriving DecidableEq, Repr

/-- Event construction of `get_earnings_calendar` (api.py lines 193–203). -/
def mkEvent (item : RawItem) (event_date : String) : EarningsCalendarEvent :=
  ⟨(lookup? item "symbol").getD (.str ""), event_date,
   lookup? item "eps", lookup? item "epsEstimated", lookup? item "time",
   lookup? item "revenue", lookup? item "revenueEstimated",
   lookup? item "quarter", lookup? item "year"⟩

/-- Result loop of `get_earnings_calendar` (api.py lines 186–204): a record is
skipped when `event_date < from_date or event_date > to_date`. -/
def buildEvents (fd td : String) : List RawItem → List EarningsCalendarEvent
  | [] => []
  | item :: rest =>
    let event_date := getDate item
    if strLt event_date fd || strLt td event_date then buildEvents fd td rest
    else mkEvent item event_date :: buildEvents fd td rest

/-- Date-window resolution of `get_earnings_calendar` (api.py lines 172–177),
with `today` standing for `datetime.now()`. -/
def calendarWindow (today : Date) (from_date to_date : Option String) :
    String × String :=
  let td :=
    match to_date with
    | none => formatDate (pyDateAdd today 30)
    | some s => if s = "" then formatDate (pyDateAdd today 30) else s
  let fd :=
    match from_date with
    | none => formatDate today
    | some s => if s = "" then formatDate today else s
  (fd, td)

/-- Endpoint selection of `get_earnings_calendar` (api.py lines 180–183): a
non-empty `symbol` selects the symbol-specific confirmed-calendar endpoint,
otherwise the general calendar endpoint is used (Python's `if symbol:` treats
`None` and `''` as absent). -/
def selectCalendarRaw (symbol : Option String)
    (raw_confirmed raw_calendar : Except String (List RawItem)) :
    Except String (List RawItem) :=
  match symbol with
  | some s => if s = "" then raw_calendar else raw_confirmed
  | none => raw_calendar

/-- Embeds `api.get_earnings_calendar` (api.py lines 168–209).  `raw_confirmed` is the
response of the symbol-specific endpoint, `raw_calendar` of the general one. -/
def get_earnings_calendar (today : Date) (from_date to_date symbol : Option String)
    (raw_confirmed raw_calendar : Except String (List RawItem)) :
    Except String (List EarningsCalendarEvent) := do
  let (fd, td) := calendarWindow today from_date to_date
  let raw ← selectCalendarRaw symbol raw_confirmed raw_calendar
  return buildEvents fd td raw

/-- Embeds `models.EarningsReport`; pass-through fields kept raw. -/
structure EarningsReport where
  symbol : Option RawVal
  date : Option RawVal
  eps : RawVal
  eps_estimated : RawVal
  time : Option RawVal
  revenue : Option RawVal
  revenue_estimated : Option RawVal
  surprise : Option RawVal
  surprise_percentage : Option RawVal
  quarter : Option RawVal
  year : Option RawVal
deriving DecidableEq, Repr

/-- Report construction of `get_eps_surprise` (api.py lines 23–35). -/
def mkEarningsReport (item : RawItem) : EarningsReport :=
  ⟨lookup? item "symbol", lookup? item "date",
   (lookup? item "actualEarningResult").getD (.num 0),
   (lookup? item "estimatedEarning").getD (.num 0),
   lookup? item "time", lookup? item "revenue", lookup? item "revenueEstimated",
   lookup? item "surprise", lookup? item "surprisePercentage",
   lookup? item "quarter", lookup? item "year"⟩

/-- Embeds `api.get_eps_surprise` (api.py lines 14–41). -/
def get_eps_surprise (symbol : String)
    (raw_data : Except String (List RawItem)) :
    Except String (List EarningsReport) := do
  let raw ← raw_data
  return raw.map mkEarningsReport

/-- Embeds `models.AnalystRating`; pass-through fields kept raw. -/
structure AnalystRating where
  analyst_name : RawVal
  date : RawVal
  rating : RawVal
  price_target : RawVal
deriving DecidableEq, Repr

/-- Rating construction of `get_price_targets` (api.py lines 124–129). -/
def mkRating (item : RawItem) : AnalystRating :=
  ⟨(lookup? item "analystName").getD (.str "Unknown"),
   (lookup? item "date").getD (.str ""),
   (lookup? item "rating").getD (.str ""),
   (lookup? item "priceTarget").getD (.num 0)⟩

/-- Embeds `models.AnalystConsensus`; pass-through fields kept raw. -/
structure AnalystConsensus where
  symbol : String
  target_consensus : RawVal
  target_high : RawVal
  target_low : RawVal
  number_of_analysts : RawVal
  last_analyst_consensus_date : RawVal
  rating_consensus : RawVal
  ratings : Option (List AnalystRating)
deriving DecidableEq, Repr

/-- The loosely-typed value `fmp.price_target_consensus` can return: a list of
records or a single record (`api.py` checks `isinstance(raw_data, list)`). -/
inductive PyData where
  | list (xs : List RawItem)
  | dict (d : RawItem)
deriving DecidableEq, Repr

/-- api.py lines 104–105 followed by the `.get` calls: a non-empty list is
replaced by its first element; `.get` on an empty list raises
`AttributeError`; a dict is used as is. -/
def firstRecord : PyData → Except String RawItem
  | .list (x :: _) => .ok x
  | .list [] => .error "AttributeError: list object has no attribute get"
  | .dict d => .ok d

/-- Consensus construction of `get_price_targets` (api.py lines 108–116);
`ratings` starts unset. -/
def mkConsensus (symbol : String) (r : RawItem) : AnalystConsensus :=
  ⟨symbol,
   (lookup? r "targetConsensus").getD (.num 0),
   (lookup? r "targetHigh").getD (.num 0),
   (lookup? r "targetLow").getD (.num 0),
   (lookup? r "numberOfAnalysts").getD (.num 0),
   (lookup? r "lastAnalystConsensusDate").getD (.str ""),
   (lookup? r "ratingConsensus").getD (.str ""),
   none⟩

/-- Embeds `api.get_price_targets` (api.py lines 98–139).  `primary` is the response
of `fmp.price_target_consensus`, `secondary` of `fmp.price_target`; the inner
`try/except: pass` swallows any failure of the secondary call, leaving
`ratings` unset. -/
def get_price_targets (symbol : String) (primary : Except String PyData)
    (secondary : Except String (List RawItem)) :
    Except String AnalystConsensus := do
  let raw ← primary
  let r ← firstRecord raw
  let consensus := mkConsensus symbol r
  match secondary with
  | .error _ => return consensus
  | .ok analyst_data => return { consensus with ratings := some (analyst_data.map mkRating) }

/-- Embeds `models.InsiderActivity`; pass-through fields kept raw (including the
`shares` field, which `api.py` fills from the upstream
`'acquistionOrDisposition'` key). -/
structure InsiderActivity where
  symbol : RawVal
  filing_date : RawVal
  transaction_date : RawVal
  reporter_name : RawVal
  reporter_title : RawVal
  transaction_type : RawVal
  shares : RawVal
  price : Option RawVal
  value : Option RawVal
  url : RawVal
deriving DecidableEq, Repr

/-- Activity construction of `get_insider_trading` (api.py lines 149–160). -/
def mkInsiderActivity (symbol : String) (item : RawItem) : InsiderActivity :=
  ⟨(lookup? item "symbol").getD (.str symbol),
   (lookup? item "filingDate").getD (.str ""),
   (lookup? item "transactionDate").getD (.str ""),
   (lookup? item "reporterName").getD (.str ""),
   (lookup? item "reporterTitle").getD (.str ""),
   (lookup? item "transactionType").getD (.str ""),
   (lookup? item "acquistionOrDisposition").getD (.num 0),
   lookup? item "price", lookup? item "value",
   (lookup? item "link").getD (.str "")⟩

/-- Embeds `api.get_insider_trading` (api.py lines 141–166); `page` and `limit` are
forwarded to the upstream call and do not affect the mapping. -/
def get_insider_trading (symbol : String) (page limit : Int)
    (raw_data : Except String (List RawItem)) :
    Except String (List InsiderActivity) := do
  let raw ← raw_data
  return raw.map (mkInsiderActivity symbol)

/-- The uniform error response of the tool facade
(`fastapi.HTTPException(status_code=500, detail=...)`). -/
structure HTTPError where
  status : Nat
  detail : String
deriving DecidableEq, Repr

/-- The `try/except` wrapper every tool in `fmp_mcp_server.py` applies: an
adapter failure becomes a 500 error whose detail embeds the original message. -/
def httpWrap {α : Type} (msg : String) : Except String α → Except HTTPError α
  | .ok a => .ok a
  | .error e => .error ⟨500, msg ++ e⟩

/-- Tool `get_eps_surprise` (fmp_mcp_server.py lines 40–52). -/
def server_get_eps_surprise (symbol : String)
    (raw_data : Except String (List RawItem)) :
    Except HTTPError (List EarningsReport) :=
  httpWrap "Error fetching EPS surprise data: " (get_eps_surprise symbol raw_data)

/-- Tool `get_rsi` (fmp_mcp_server.py lines 54–71). -/
def server_get_rsi (today : Date) (symbol : String) (time_period : Int)
    (from_date to_date : Option String)
    (raw_data : Except String (List RawItem)) :
    Except HTTPError IndicatorOutput :=
  httpWrap "Error fetching RSI data: "
    (get_technical_indicator today symbol "rsi" time_period from_date to_date raw_data)

/-- Tool `get_sma` (fmp_mcp_server.py lines 73–90). -/
def server_get_sma (today : Date) (symbol : String) (time_period : Int)
    (from_date to_date : Option String)
    (raw_data : Except String (List RawItem)) :
    Except HTTPError IndicatorOutput :=
  httpWrap "Error fetching SMA data: "
    (get_technical_indicator today symbol "sma" time_period from_date to_date raw_data)

/-- Tool `get_price_targets` (fmp_mcp_server.py lines 92–104). -/
def server_get_price_targets (symbol : String) (primary : Except String PyData)
    (secondary : Except String (List RawItem)) :
    Except HTTPError AnalystConsensus :=
  httpWrap "Error fetching price target data: " (get_price_targets symbol primary secondary)

/-- Tool `get_insider_trading` (fmp_mcp_server.py lines 106–122). -/
def server_get_insider_trading (symbol : String) (page limit : Int)
    (raw_data : Except String (List RawItem)) :
    Except HTTPError (List InsiderActivity) :=
  httpWrap "Error fetching insider trading data: "
    (get_insider_trading symbol page limit raw_data)

/-- Tool `get_earnings_calendar` (fmp_mcp_server.py lines 124–140). -/
def server_get_earnings_calendar (today : Date)
    (from_date to_date symbol : Option String)
    (raw_confirmed raw_calendar : Except String (List RawItem)) :
    Except HTTPError (List EarningsCalendarEvent) :=
  httpWrap "Error fetching earnings calendar data: "
    (get_earnings_calendar today from_date to_date symbol raw_confirmed raw_calendar)

/-- Ascending-by-date ordering of an indicator series, under the Python string
comparison the adapter uses. -/
def sortedByDate (vs : List IndicatorValue) : Prop :=
  List.Pairwise (fun a b => strLe a.date b.date = true) vs

instance (vs : List IndicatorValue) : Decidable (sortedByDate vs) := by
  unfold sortedByDate; infer_instance

theorem charDigit_digitChar (k : Nat) : charDigit (digitChar k) = some (k % 10) := by
  unfold digitChar
  have h : k % 10 = 0 ∨ k % 10 = 1 ∨ k % 10 = 2 ∨ k % 10 = 3 ∨ k % 10 = 4 ∨
      k % 10 = 5 ∨ k % 10 = 6 ∨ k % 10 = 7 ∨ k % 10 = 8 ∨ k % 10 = 9 := by omega
  rcases h with h | h | h | h | h | h | h | h | h | h <;> rw [h] <;> rfl

theorem daysInMonth_le (y m : Nat) : daysInMonth y m ≤ 31 := by
  unfold daysInMonth
  split_ifs <;> omega

/-- Parsing inverts formatting on every well-formed date: applying `parseDate` to the
ten-character zero-padded rendering recovers the date. -/
theorem parseDate_formatDate (d : Date) (h : validDate d) :
    parseDate (formatDate d) = some d := by
  obtain ⟨h1, h2, h3, h4, h5, h6⟩ := h
  have hd31 : d.day ≤ 31 := le_trans h6 (daysInMonth_le d.year d.month)
  show parseDate ⟨pad4 d.year ++ '-' :: pad2 d.month ++ '-' :: pad2 d.day⟩ = some d
  simp only [pad4, pad2, List.cons_append, List.nil_append]
  unfold parseDate
  simp only [charDigit_digitChar]
  have hy : d.year / 1000 % 10 * 1000 + d.year / 100 % 10 * 100 +
      d.year / 10 % 10 * 10 + d.year % 10 = d.year := by omega
  have hm : d.month / 10 % 10 * 10 + d.month % 10 = d.month := by omega
  have hd : d.day / 10 % 10 * 10 + d.day % 10 = d.day := by omega
  simp only [hy, hm, hd]
  simp only [and_self, if_true, reduceIte]
  rw [if_pos ⟨by omega, by omega, h4, h5, h6⟩]

/-- A successful conversion loop produces exactly the points of the records
whose value resolves, in upstream order. -/
theorem buildValues_ok_eq (ind : String) (raw : List RawItem) :
    ∀ vs, buildValues ind raw = .ok vs → vs = raw.filterMap (mkPointTotal ind) := by
  induction raw with
  | nil =>
    intro vs h
    simp only [buildValues] at h
    cases h
    simp
  | cons item rest ih =>
    intro vs h
    rw [List.filterMap_cons]
    cases hmk : mkPoint ind item with
    | error e => simp [buildValues, hmk, Bind.bind, Except.bind] at h
    | ok o =>
      cases o with
      | none =>
        simp only [buildValues, hmk, Bind.bind, Except.bind] at h
        simp only [mkPointTotal, hmk]
        exact ih vs h
      | some p =>
        cases hb : buildValues ind rest with
        | error e => simp [buildValues, hmk, hb, Bind.bind, Except.bind] at h
        | ok l =>
          simp only [buildValues, hmk, hb, Bind.bind, Except.bind, pure,
            Except.pure, Except.ok.injEq] at h
          simp only [mkPointTotal, hmk]
          rw [← h, ih l hb]

/-- A record whose value does not resolve contributes nothing: the conversion
loop on a list containing it equals the loop on the list without it. -/
theorem buildValues_skip (ind : String) (item : RawItem)
    (h : resolveIndicatorValue ind item = none) (pre post : List RawItem) :
    buildValues ind (pre ++ item :: post) = buildValues ind (pre ++ post) := by
  induction pre with
  | nil =>
    have hmk : mkPoint ind item = .ok none := by simp [mkPoint, h]
    simp only [List.nil_append, buildValues, hmk, Bind.bind, Except.bind]
  | cons a pre ih =>
    simp only [List.cons_append, buildValues, List.append_eq]
    rw [ih]

/-- Every event kept by the calendar loop has its date inside the window. -/
theorem buildEvents_mem (fd td : String) (raw : List RawItem) :
    ∀ ev ∈ buildEvents fd td raw, strLe fd ev.date = true ∧ strLe ev.date td = true := by
  induction raw with
  | nil => intro ev h; simp [buildEvents] at h
  | cons item rest ih =>
    intro ev h
    simp only [buildEvents] at h
    by_cases hc : (strLt (getDate item) fd || strLt td (getDate item)) = true
    · rw [if_pos hc] at h
      exact ih ev h
    · rw [if_neg hc] at h
      rcases List.mem_cons.mp h with h | h
      · have hc' := Bool.eq_false_iff.mpr hc
        rcases Bool.or_eq_false_iff.mp hc' with ⟨hx, hy⟩
        subst h
        refine ⟨?_, ?_⟩
        · show strLe fd (getDate item) = true
          unfold strLe
          rw [hx]
          rfl
        · show strLe (getDate item) td = true
          unfold strLe
          rw [hy]
          rfl
      · exact ih ev h

/-- Inversion principle for a successful indicator call: it decomposes into a
resolved window, a successful upstream response, a successful conversion loop,
and the date-range filter. -/
theorem get_technical_indicator_ok (today : Date) (sym ind : String) (tp : Int)
    (fd? td? : Option String) (rawE : Except String (List RawItem))
    (out : IndicatorOutput)
    (h : get_technical_indicator today sym ind tp fd? td? rawE = .ok out) :
    ∃ f t raw vs, indicatorWindow today fd? td? = .ok (f, t) ∧ rawE = .ok raw ∧
      buildValues ind raw = .ok vs ∧
      out = ⟨sym, ind, tp, vs.filter (fun v => strLe f v.date && strLe v.date t)⟩ := by
  unfold get_technical_indicator at h
  cases hw : indicatorWindow today fd? td? with
  | error e => rw [hw] at h; simp [Bind.bind, Except.bind] at h
  | ok p =>
    obtain ⟨f, t⟩ := p
    rw [hw] at h
    cases hr : rawE with
    | error e => rw [hr] at h; simp [Bind.bind, Except.bind] at h
    | ok raw =>
      rw [hr] at h
      simp only [Bind.bind, Except.bind] at h
      cases hb : buildValues ind raw with
      | error e => rw [hb] at h; simp at h
      | ok vs =>
        rw [hb] at h
        simp only [pure, Except.pure, Except.ok.injEq] at h
        exact ⟨f, t, raw, vs, rfl, rfl, hb, h.symm⟩

/-- C1 (counterexample): `get_technical_indicator` does not sort.  Two upstream
records arriving in descending date order, both inside the requested window,
come back in the same descending order, so the returned `values` sequence is
not sorted ascending by date. -/
theorem c1_counterexample :
    get_technical_indicator ⟨2024, 3, 15⟩ "AAPL" "rsi" 14
      (some "2024-03-01") (some "2024-03-10")
      (.ok [[("rsi", RawVal.num 2), ("date", RawVal.str "2024-03-02")],
            [("rsi", RawVal.num 1), ("date", RawVal.str "2024-03-01")]]) =
      .ok ⟨"AAPL", "rsi", 14, [⟨"2024-03-02", 2⟩, ⟨"2024-03-01", 1⟩]⟩
    ∧ ¬ sortedByDate [⟨"2024-03-02", 2⟩, ⟨"2024-03-01", 1⟩] := by
  exact ⟨by rfl, by decide⟩

/-- C1 (amended): the `values` sequence of the `IndicatorOutput` returned by
`get_technical_indicator` is sorted ascending by date whenever the points
constructed from the upstream records, taken in their upstream order, are
already ascending by date; the adapter preserves upstream order and performs
no sorting of its own. -/
theorem c1_sorted_iff_upstream_sorted (today : Date) (sym ind : String)
    (tp : Int) (fd? td? : Option String) (raw : List RawItem)
    (out : IndicatorOutput)
    (h : get_technical_indicator today sym ind tp fd? td? (.ok raw) = .ok out)
    (hs : sortedByDate (raw.filterMap (mkPointTotal ind))) :
    sortedByDate out.values := by
  obtain ⟨f, t, raw', vs, hw, hr, hb, hout⟩ :=
    get_technical_indicator_ok _ _ _ _ _ _ _ _ h
  injection hr with hr
  subst hr
  have hvs := buildValues_ok_eq ind raw vs hb
  subst hvs
  subst hout
  exact List.Pairwise.sublist (List.filter_sublist _) hs

/-- C1 (witness): the amended theorem applied to a concrete ascending-ordered
upstream response. -/
theorem c1_sorted_iff_upstream_sorted_witness :
    sortedByDate (IndicatorOutput.values
      ⟨"AAPL", "rsi", 14, [⟨"2024-03-01", 1⟩, ⟨"2024-03-02", 2⟩]⟩) :=
  c1_sorted_iff_upstream_sorted ⟨2024, 3, 15⟩ "AAPL" "rsi" 14
    (some "2024-03-01") (some "2024-03-10")
    [[("rsi", RawVal.num 1), ("date", RawVal.str "2024-03-01")],
     [("rsi", RawVal.num 2), ("date", RawVal.str "2024-03-02")]]
    ⟨"AAPL", "rsi", 14, [⟨"2024-03-01", 1⟩, ⟨"2024-03-02", 2⟩]⟩
    (by rfl) (by decide)

/-- C2: indicator queries resolve missing dates by taking the current date for
an absent `to_date`, and the resolved `to_date` minus 100 days for an absent
`from_date`, both rendered `YYYY-MM-DD`; a supplied date is kept unchanged. -/
theorem c2_indicator_date_defaults (today : Date) (h : validDate today) :
    indicatorWindow today none none =
      .ok (formatDate (pyDateSub today 100), formatDate today)
    ∧ (∀ td d, parseDate td = some d →
        indicatorWindow today none (some td) =
          .ok (formatDate (pyDateSub d 100), td))
    ∧ (∀ fd, fd ≠ "" →
        indicatorWindow today (some fd) none = .ok (fd, formatDate today)) := by
  refine ⟨?_, ?_, ?_⟩
  · show (resolveFrom (formatDate today)).map (fun f => (f, formatDate today)) = _
    unfold resolveFrom
    rw [parseDate_formatDate today h]
    rfl
  · intro td d hp
    have htd : td ≠ "" := by
      intro he
      subst he
      simp [parseDate] at hp
    show (resolveFrom (if td = "" then formatDate today else td)).map
        (fun f => (f, if td = "" then formatDate today else td)) = _
    rw [if_neg htd]
    unfold resolveFrom
    rw [hp]
    rfl
  · intro fd hfd
    show (if fd = "" then
        (resolveFrom (formatDate today)).map (fun f => (f, formatDate today))
      else .ok (fd, formatDate today)) = _
    rw [if_neg hfd]

/-- C2 (witness): on 2024-03-15 with both dates absent, the window resolves to
`("2023-12-06", "2024-03-15")`. -/
theorem c2_indicator_date_defaults_witness :
    indicatorWindow ⟨2024, 3, 15⟩ none none = .ok ("2023-12-06", "2024-03-15") := by
  rw [(c2_indicator_date_defaults ⟨2024, 3, 15⟩ (by decide)).1]
  rfl

/-- C3: calendar queries resolve missing dates by taking the current date plus
30 days for an absent `to_date`, and the current date for an absent
`from_date`, both rendered `YYYY-MM-DD`; a supplied date is kept unchanged. -/
theorem c3_calendar_date_defaults (today : Date) :
    calendarWindow today none none =
      (formatDate today, formatDate (pyDateAdd today 30))
    ∧ (∀ fd, fd ≠ "" →
        calendarWindow today (some fd) none = (fd, formatDate (pyDateAdd today 30)))
    ∧ (∀ td, td ≠ "" →
        calendarWindow today none (some td) = (formatDate today, td)) := by
  refine ⟨rfl, ?_, ?_⟩ <;> intro s hs <;> simp [calendarWindow, hs]

/-- C3 (witness): on 2024-03-15 with both dates absent, the window resolves to
`("2024-03-15", "2024-04-14")`. -/
theorem c3_calendar_date_defaults_witness :
    calendarWindow ⟨2024, 3, 15⟩ none none = ("2024-03-15", "2024-04-14") := by
  rw [(c3_calendar_date_defaults ⟨2024, 3, 15⟩).1]
  decide

theorem hasKey_false {item : RawItem} {k : String} (h : hasKey item k = false) :
    lookup? item k = none := by
  unfold hasKey at h
  cases hl : lookup? item k with
  | none => rfl
  | some v => rw [hl] at h; simp at h

theorem hasKey_true {item : RawItem} {k : String} (h : hasKey item k = true) :
    ∃ v, lookup? item k = some v := by
  unfold hasKey at h
  cases hl : lookup? item k with
  | none => rw [hl] at h; simp at h
  | some v => exact ⟨v, rfl⟩

/-- C4: the indicator value of a raw record is resolved by first trying the
lower-cased indicator name, then, in order, the keys `'value'`, the indicator
name as given, and `'indicator_value'`, first match winning; a record carrying
none of these keys contributes no output entry and raises no error — the call
on a list containing such a record equals the call on the list without it. -/
theorem c4_value_resolution (indicator : String) (item : RawItem) :
    (hasKey item (strToLower indicator) = true →
      resolveIndicatorValue indicator item = lookup? item (strToLower indicator))
    ∧ (hasKey item (strToLower indicator) = false → hasKey item "value" = true →
      resolveIndicatorValue indicator item = lookup? item "value")
    ∧ (hasKey item (strToLower indicator) = false → hasKey item "value" = false →
      hasKey item indicator = true →
      resolveIndicatorValue indicator item = lookup? item indicator)
    ∧ (hasKey item (strToLower indicator) = false → hasKey item "value" = false →
      hasKey item indicator = false →
      resolveIndicatorValue indicator item = lookup? item "indicator_value")
    ∧ (hasKey item (strToLower indicator) = false → hasKey item "value" = false →
      hasKey item indicator = false → hasKey item "indicator_value" = false →
      ∀ today sym tp fd? td? pre post,
        get_technical_indicator today sym indicator tp fd? td?
          (.ok (pre ++ item :: post)) =
        get_technical_indicator today sym indicator tp fd? td? (.ok (pre ++ post))) := by
  refine ⟨?_, ?_, ?_, ?_, ?_⟩
  · intro h1
    simp [resolveIndicatorValue, h1]
  · intro h1 h2
    obtain ⟨v, hv⟩ := hasKey_true h2
    simp [resolveIndicatorValue, h1, List.findSome?, hv]
  · intro h1 h2 h3
    obtain ⟨v, hv⟩ := hasKey_true h3
    simp [resolveIndicatorValue, h1, List.findSome?, hasKey_false h2, hv]
  · intro h1 h2 h3
    simp only [resolveIndicatorValue, h1, Bool.false_eq_true, if_false,
      List.findSome?, hasKey_false h2, hasKey_false h3]
    cases lookup? item "indicator_value" <;> rfl
  · intro h1 h2 h3 h4
    have hres : resolveIndicatorValue indicator item = none := by
      simp [resolveIndicatorValue, h1, List.findSome?, hasKey_false h2,
        hasKey_false h3, hasKey_false h4]
    intro today sym tp fd? td? pre post
    unfold get_technical_indicator
    cases hw : indicatorWindow today fd? td? with
    | error e => rfl
    | ok p =>
      obtain ⟨f, t⟩ := p
      simp only [Bind.bind, Except.bind]
      rw [buildValues_skip indicator item hres pre post]

/-- C4 (witness): a record holding only a date, with indicator `rsi`, is
silently dropped. -/
theorem c4_value_resolution_witness :
    get_technical_indicator ⟨2024, 3, 15⟩ "AAPL" "rsi" 14
      (some "2024-03-01") (some "2024-03-10")
      (.ok [[("date", RawVal.str "2024-03-01")]]) =
    get_technical_indicator ⟨2024, 3, 15⟩ "AAPL" "rsi" 14
      (some "2024-03-01") (some "2024-03-10") (.ok []) :=
  (c4_value_resolution "rsi" [("date", RawVal.str "2024-03-01")]).2.2.2.2
    (by decide) (by decide) (by decide) (by decide)
    ⟨2024, 3, 15⟩ "AAPL" 14 (some "2024-03-01") (some "2024-03-10") [] []

/-- C5: every indicator point and every calendar event in a successful result
has its date inside the resolved window `[from_date, to_date]` inclusive,
under lexicographic string comparison. -/
theorem c5_date_window_filter :
    (∀ today sym ind tp fd? td? rawE out f t,
      indicatorWindow today fd? td? = .ok (f, t) →
      get_technical_indicator today sym ind tp fd? td? rawE = .ok out →
      ∀ v ∈ out.values, strLe f v.date = true ∧ strLe v.date t = true)
    ∧ (∀ today fd? td? sym? rawC rawG evs,
      get_earnings_calendar today fd? td? sym? rawC rawG = .ok evs →
      ∀ ev ∈ evs, strLe (calendarWindow today fd? td?).1 ev.date = true ∧
        strLe ev.date (calendarWindow today fd? td?).2 = true) := by
  constructor
  · intro today sym ind tp fd? td? rawE out f t hw h v hv
    obtain ⟨f', t', raw, vs, hw', hr, hb, hout⟩ :=
      get_technical_indicator_ok _ _ _ _ _ _ _ _ h
    have hft : (f, t) = (f', t') := by
      injection hw.symm.trans hw'
    injection hft with hf ht
    subst hf
    subst ht
    subst hout
    have hvf := (List.mem_filter.mp hv).2
    simpa using hvf
  · intro today fd? td? sym? rawC rawG evs h ev hmem
    unfold get_earnings_calendar at h
    cases hcw : calendarWindow today fd? td? with
    | mk f t =>
      rw [hcw] at h
      have h' : (selectCalendarRaw sym? rawC rawG).bind
          (fun raw => Except.ok (buildEvents f t raw)) = .ok evs := h
      cases hsel : selectCalendarRaw sym? rawC rawG with
      | error e => rw [hsel] at h'; simp [Except.bind] at h'
      | ok raw =>
        rw [hsel] at h'
        simp only [Except.bind, Except.ok.injEq] at h'
        subst h'
        exact buildEvents_mem f t raw ev hmem

/-- C5 (witness): a point dated 2024-03-01 returned for the window
`["2024-02-01", "2024-03-10"]` satisfies both bounds. -/
theorem c5_date_window_filter_witness :
    strLe "2024-02-01" "2024-03-01" = true ∧ strLe "2024-03-01" "2024-03-10" = true :=
  (c5_date_window_filter).1 ⟨2024, 3, 15⟩ "AAPL" "rsi" 14
    (some "2024-02-01") (some "2024-03-10")
    (.ok [[("rsi", RawVal.num 1), ("date", RawVal.str "2024-03-01")]])
    ⟨"AAPL", "rsi", 14, [⟨"2024-03-01", 1⟩]⟩ "2024-02-01" "2024-03-10"
    rfl rfl ⟨"2024-03-01", 1⟩ (by decide)

/-- C6: if the secondary analyst-rating fetch fails for any reason, the call
still succeeds and returns the consensus built from the primary response, with
its ratings field left unset. -/
theorem c6_secondary_failure_tolerated (symbol : String) (pd : PyData)
    (r : RawItem) (e : String) (h : firstRecord pd = .ok r) :
    get_price_targets symbol (.ok pd) (.error e) = .ok (mkConsensus symbol r)
    ∧ (mkConsensus symbol r).ratings = none := by
  constructor
  · unfold get_price_targets
    simp [Bind.bind, Except.bind, h, pure, Except.pure]
  · rfl

/-- C6 (witness): concrete primary record, failing secondary call. -/
theorem c6_secondary_failure_tolerated_witness :
    get_price_targets "AAPL" (.ok (.dict [("targetConsensus", RawVal.num 42)]))
      (.error "boom") =
      .ok (mkConsensus "AAPL" [("targetConsensus", RawVal.num 42)])
    ∧ (mkConsensus "AAPL" [("targetConsensus", RawVal.num 42)]).ratings = none :=
  c6_secondary_failure_tolerated "AAPL" (.dict [("targetConsensus", RawVal.num 42)])
    [("targetConsensus", RawVal.num 42)] "boom" rfl

/-- C7: when the primary upstream call returns a list of two or more records,
the result is identical to the result on the one-record list holding only the
first record — no field of any later record can appear. -/
theorem c7_first_record_only (symbol : String) (x : RawItem)
    (rest : List RawItem) (secondary : Except String (List RawItem)) :
    get_price_targets symbol (.ok (.list (x :: rest))) secondary =
    get_price_targets symbol (.ok (.list [x])) secondary := rfl

/-- C8: a failure of the primary upstream call aborts every operation and
surfaces as a single 500 error whose detail carries the original message; the
one exception is the secondary analyst-rating enrichment of
`get_price_targets`, whose failure leaves the call successful. -/
theorem c8_upstream_failure_surfaced (e : String) (today : Date) (sym : String)
    (tp page limit : Int) (fd td : String) (hfd : fd ≠ "")
    (sec : Except String (List RawItem)) (sym? : Option String) :
    server_get_eps_surprise sym (.error e) =
      .error ⟨500, "Error fetching EPS surprise data: " ++ e⟩
    ∧ server_get_rsi today sym tp (some fd) (some td) (.error e) =
      .error ⟨500, "Error fetching RSI data: " ++ e⟩
    ∧ server_get_sma today sym tp (some fd) (some td) (.error e) =
      .error ⟨500, "Error fetching SMA data: " ++ e⟩
    ∧ server_get_price_targets sym (.error e) sec =
      .error ⟨500, "Error fetching price target data: " ++ e⟩
    ∧ server_get_insider_trading sym page limit (.error e) =
      .error ⟨500, "Error fetching insider trading data: " ++ e⟩
    ∧ server_get_earnings_calendar today (some fd) (some td) sym? (.error e) (.error e) =
      .error ⟨500, "Error fetching earnings calendar data: " ++ e⟩
    ∧ (∀ d e2, get_price_targets sym (.ok (.dict d)) (.error e2) =
        .ok (mkConsensus sym d)) := by
  have hw : ∀ td0 : String, indicatorWindow today (some fd) (some td0) =
      .ok (fd, if td0 = "" then formatDate today else td0) := by
    intro td0
    show (if fd = "" then
        (resolveFrom (if td0 = "" then formatDate today else td0)).map
          (fun f => (f, if td0 = "" then formatDate today else td0))
      else .ok (fd, if td0 = "" then formatDate today else td0)) = _
    rw [if_neg hfd]
  refine ⟨rfl, ?_, ?_, rfl, rfl, ?_, fun d e2 => rfl⟩
  · unfold server_get_rsi httpWrap get_technical_indicator
    rw [hw td]
    rfl
  · unfold server_get_sma httpWrap get_technical_indicator
    rw [hw td]
    rfl
  · unfold server_get_earnings_calendar get_earnings_calendar httpWrap selectCalendarRaw
    rcases sym? with _ | s
    · rfl
    · by_cases hs : s = ""
      · subst hs
        rfl
      · simp only [if_neg hs]
        rfl

/-- C8 (witness): concrete upstream failure surfacing through the EPS tool. -/
theorem c8_upstream_failure_surfaced_witness :
    server_get_eps_surprise "AAPL" (.error "boom") =
      .error ⟨500, "Error fetching EPS surprise data: boom"⟩ :=
  (c8_upstream_failure_surfaced "boom" ⟨2024, 3, 15⟩ "AAPL" 14 0 100
    "2024-01-01" "2024-03-01" (by decide) (.error "x") none).1

/-- C9: `get_technical_indicator` never reorders: the returned values are
exactly the surviving constructed points in upstream order, hence a
subsequence of the points constructed from the upstream records, and the
output is ascending by date precisely when those surviving points are. -/
theorem c9_order_preserved (today : Date) (sym ind : String) (tp : Int)
    (fd? td? : Option String) (raw : List RawItem) (out : IndicatorOutput)
    (f t : String)
    (hw : indicatorWindow today fd? td? = .ok (f, t))
    (h : get_technical_indicator today sym ind tp fd? td? (.ok raw) = .ok out) :
    out.values = (raw.filterMap (mkPointTotal ind)).filter
        (fun v => strLe f v.date && strLe v.date t)
    ∧ out.values.Sublist (raw.filterMap (mkPointTotal ind))
    ∧ (sortedByDate out.values ↔
        sortedByDate ((raw.filterMap (mkPointTotal ind)).filter
          (fun v => strLe f v.date && strLe v.date t))) := by
  obtain ⟨f', t', raw', vs, hw', hr, hb, hout⟩ :=
    get_technical_indicator_ok _ _ _ _ _ _ _ _ h
  injection hr with hr
  subst hr
  have hft : (f, t) = (f', t') := by
    injection hw.symm.trans hw'
  injection hft with hf ht
  subst hf
  subst ht
  have hvs := buildValues_ok_eq ind raw vs hb
  subst hvs
  subst hout
  exact ⟨rfl, List.filter_sublist _, Iff.rfl⟩

/-- C9 (witness): concrete descending-ordered upstream response; the output is
the filtered constructed points, unchanged in order. -/
theorem c9_order_preserved_witness :
    IndicatorOutput.values ⟨"AAPL", "rsi", 14,
        [⟨"2024-03-02", 2⟩, ⟨"2024-03-01", 1⟩]⟩ =
      (([[("rsi", RawVal.num 2), ("date", RawVal.str "2024-03-02")],
         [("rsi", RawVal.num 1), ("date", RawVal.str "2024-03-01")]].filterMap
            (mkPointTotal "rsi")).filter
        (fun v => strLe "2024-03-01" v.date && strLe v.date "2024-03-10")) :=
  (c9_order_preserved ⟨2024, 3, 15⟩ "AAPL" "rsi" 14
    (some "2024-03-01") (some "2024-03-10")
    [[("rsi", RawVal.num 2), ("date", RawVal.str "2024-03-02")],
     [("rsi", RawVal.num 1), ("date", RawVal.str "2024-03-01")]]
    ⟨"AAPL", "rsi", 14, [⟨"2024-03-02", 2⟩, ⟨"2024-03-01", 1⟩]⟩
    "2024-03-01" "2024-03-10" rfl rfl).1

/-- C10: an empty list from the primary price-target call is never replaced by
a record; attribute lookup on the list itself raises, so the call fails. -/
theorem c10_empty_list_errors (symbol : String)
    (secondary : Except String (List RawItem)) :
    get_price_targets symbol (.ok (.list [])) secondary =
      .error "AttributeError: list object has no attribute get" := rfl

end FMP
